import Mathlib

/-!
Verification of the Apple toolchain resolver (`env_apple.py`).

The module is embedded shallowly: the static tables become Lean lists, the
Python dict operations become association-list operations, and the external
effects (the `xcrun` SDK-path locator, the `xcrun` tool locator, and the
filesystem existence probe) become an oracle record `Env` supplied by the
caller.  Python `KeyError` / `AttributeError` propagation is modelled with
an `Except` result paired with the configuration sink reached at the point
of failure, so that partial-output behaviour is visible.
-/

namespace EnvApple

/-- Single-quote character (ASCII 39), used by the Python and meson list
renderings below. -/
def sq : String := (Char.ofNat 39).toString

/-- Python `str()` applied to a list of strings (as used on `argv` at
line 85 of `env_apple.py`): bracketed, comma-separated, each element
single-quoted.  Faithful for strings containing no quotes or escapes,
which holds for every string this module produces. -/
def pyStr (xs : List String) : String :=
  "[" ++ String.intercalate ", " (xs.map (fun x => sq ++ x ++ sq)) ++ "]"

/-- Modelled from the spec: the flag-array serializer `strv_to_meson` lives in
the `machine_file` module, which is not under `src/`; per the spec it turns an
ordered sequence of strings into the build system array-literal syntax. -/
def strv_to_meson (xs : List String) : String :=
  "[" ++ String.intercalate ", " (xs.map (fun x => sq ++ x ++ sq)) ++ "]"

/-- Modelled from the spec: the machine-descriptor type (`machine_spec`
module, not under `src/`) exposes an OS identifier, an architecture
identifier and an optional ABI/config suffix. -/
structure MachineSpec where
  os : String
  arch : String
  config : Option String

/-- Modelled from the spec: derived lookup key joining OS and config with a
dash; just the OS when no config suffix is present. -/
def MachineSpec.os_dash_config (m : MachineSpec) : String :=
  match m.config with
  | none => m.os
  | some c => m.os ++ "-" ++ c

/-- Modelled from the spec: derived lookup key joining OS and architecture
with a dash. -/
def MachineSpec.os_dash_arch (m : MachineSpec) : String :=
  m.os ++ "-" ++ m.arch

/-- Lookup in a Python-style dict modelled as an association list (first
match wins; all dicts built by this module have distinct keys). -/
def dictGet? {α : Type} (d : List (String × α)) (k : String) : Option α :=
  match d with
  | [] => none
  | (k2, v) :: rest => if k2 == k then some v else dictGet? rest k

/-- The `APPLE_SDKS` table (lines 10-18): OS-dash-config key to SDK name. -/
def APPLE_SDKS : List (String × String) := [
  ("macos",             "macosx"),
  ("ios",               "iphoneos"),
  ("ios-simulator",     "iphonesimulator"),
  ("watchos",           "watchos"),
  ("watchos-simulator", "watchsimulator"),
  ("tvos",              "appletvos"),
  ("tvos-simulator",    "appletvsimulator")]

/-- The `APPLE_CLANG_ARCHS` table (lines 20-24): architecture alias table. -/
def APPLE_CLANG_ARCHS : List (String × String) := [
  ("x86",        "i386"),
  ("arm",        "armv7"),
  ("arm64eoabi", "arm64e")]

/-- The `APPLE_MINIMUM_OS_VERSIONS` table (lines 26-33). -/
def APPLE_MINIMUM_OS_VERSIONS : List (String × String) := [
  ("macos",        "10.9"),
  ("macos-arm64",  "11.0"),
  ("macos-arm64e", "11.0"),
  ("ios",          "8.0"),
  ("watchos",      "9.0"),
  ("tvos",         "13.0")]

/-- The `APPLE_BINARIES` list (lines 35-51): ordered
(role, tool-name-or-alias, extra-flags) triples.  Entries with no third
tuple component in the source carry the empty flag list here; the loop
treats both identically since appending no flags is a no-op. -/
def APPLE_BINARIES : List (String × String × List String) := [
  ("c",                 "clang",              []),
  ("cpp",               "clang++",            ["-stdlib=libc++"]),
  ("objc",              "#c",                 []),
  ("objcpp",            "#cpp",               []),
  ("ar",                "ar",                 []),
  ("nm",                "llvm-nm",            []),
  ("ranlib",            "ranlib",             []),
  ("strip",             "strip",              ["-Sx"]),
  ("libtool",           "libtool",            []),
  ("install_name_tool", "install_name_tool",  []),
  ("otool",             "otool",              []),
  ("codesign",          "codesign",           []),
  ("lipo",              "lipo",               [])]

/-- Oracle for the module's external effects: `xcrun --show-sdk-path` per SDK
name, `xcrun -f` per (SDK name, tool name), and the filesystem existence
probe per path.  Outputs are already trimmed strings. -/
structure Env where
  sdkPath : String → String
  toolPath : String → String → String
  fileExists : String → Bool

/-- Python exceptions the resolver can propagate: `KeyError` from a dict
index, and `AttributeError` from dereferencing `None`. -/
inductive ResolveError where
  | keyError (key : String)
  | attributeError
  deriving DecidableEq

/-- Parent directory of a path string, as `pathlib.Path.parent`: the path
with its last slash-separated component removed. -/
def pathParent (p : String) : String :=
  String.intercalate "/" ((p.splitOn "/").dropLast)

/-- Bool test for the alias marker, Python `tool_name.startswith("#")`: the
first character of the string is `#` (code point 35). -/
def isAliasRef (s : String) : Bool := s.data.head? == some (Char.ofNat 35)

/-- The binary-resolution loop (lines 68-89): walks `APPLE_BINARIES` in
order, resolving each non-alias tool through the tool locator, remembering
the clang path, and rendering `str(argv)` with the `+ common_flags`
composition suffix for the `c` and `cpp` roles; alias entries (leading `#`)
copy the referenced role's already-recorded string. -/
def resolveBinaries (env : Env) (sdk_name : String) :
    Except ResolveError (List (String × String) × Option String) :=
  APPLE_BINARIES.foldl
    (fun acc entry =>
      match acc with
      | Except.error e => Except.error e
      | Except.ok (binaries, clang_path) =>
        match entry with
        | (identifier, tool_name, flags) =>
          if isAliasRef tool_name then
            match dictGet? binaries (tool_name.drop 1) with
            | none => Except.error (ResolveError.keyError (tool_name.drop 1))
            | some v => Except.ok (binaries ++ [(identifier, v)], clang_path)
          else
            let path := env.toolPath sdk_name tool_name
            let clang_path := if tool_name == "clang" then some path else clang_path
            let argv := path :: flags
            let raw_val := pyStr argv
            let raw_val := if identifier == "c" || identifier == "cpp"
              then raw_val ++ " + common_flags" else raw_val
            Except.ok (binaries ++ [(identifier, raw_val)], clang_path))
    (Except.ok ([], none))

/-- The binaries table that the loop produces, written out entry by entry;
`resolveBinaries_eq` below proves the loop always succeeds with exactly
this table. -/
def resolvedBins (env : Env) (s : String) : List (String × String) := [
  ("c",       pyStr [env.toolPath s "clang"] ++ " + common_flags"),
  ("cpp",     pyStr [env.toolPath s "clang++", "-stdlib=libc++"] ++ " + common_flags"),
  ("objc",    pyStr [env.toolPath s "clang"] ++ " + common_flags"),
  ("objcpp",  pyStr [env.toolPath s "clang++", "-stdlib=libc++"] ++ " + common_flags"),
  ("ar",      pyStr [env.toolPath s "ar"]),
  ("nm",      pyStr [env.toolPath s "llvm-nm"]),
  ("ranlib",  pyStr [env.toolPath s "ranlib"]),
  ("strip",   pyStr [env.toolPath s "strip", "-Sx"]),
  ("libtool", pyStr [env.toolPath s "libtool"]),
  ("install_name_tool", pyStr [env.toolPath s "install_name_tool"]),
  ("otool",   pyStr [env.toolPath s "otool"]),
  ("codesign", pyStr [env.toolPath s "codesign"]),
  ("lipo",    pyStr [env.toolPath s "lipo"])]

theorem resolveBinaries_eq (env : Env) (s : String) :
    resolveBinaries env s =
      Except.ok (resolvedBins env s, some (env.toolPath s "clang")) := rfl

/-- The architecture mapping (line 92): alias-table lookup with identity
fallback. -/
def clangArchFor (arch : String) : String :=
  (dictGet? APPLE_CLANG_ARCHS arch).getD arch

/-- The target-triple assembly (lines 97-99): architecture, vendor, OS and
minimum version, with a trailing config-suffix segment when present. -/
def targetTriple (clang_arch os os_minver : String) (config : Option String) : String :=
  let target := clang_arch ++ "-apple-" ++ os ++ os_minver
  match config with
  | none => target
  | some c => target ++ "-" ++ c

/-- Everything of the target triple after the leading architecture
component and its dash; used to state the identity-fallback property. -/
def tripleTail (os os_minver : String) (config : Option String) : String :=
  match config with
  | none => "apple-" ++ os ++ os_minver
  | some c => "apple-" ++ os ++ os_minver ++ "-" ++ c

/-- The constants section (lines 101-130): linker flags with the best-effort
ld-classic probe next to the resolved clang binary, the three always-present
flag-group constants, and the two C++-related constants added only when an
SDK overlay is supplied, its static libc++ archive exists, and the OS is not
watchos. -/
def mkConstants (machine : MachineSpec) ( sdk_prefix : Option String) (env : Env)
    (sdk_path target clang_path : String) : List (String × String) :=
  let linker_flags := ["-Wl,-dead_strip"] ++
    (if env.fileExists (pathParent clang_path ++ "/ld-classic")
      then ["-Wl,-ld_classic"] else [])
  let constants := [
    ("common_flags", strv_to_meson ["-target", target, "-isysroot", sdk_path]),
    ("c_like_flags", strv_to_meson []),
    ("linker_flags", strv_to_meson linker_flags)]
  match sdk_prefix with
  | none => constants
  | some p =>
    if env.fileExists (p ++ "/lib/c++/libc++.a") && (machine.os != "watchos") then
      constants ++ [
        ("cxx_like_flags", strv_to_meson [
          "-nostdinc++",
          "-isystem" ++ (p ++ "/include/c++")]),
        ("cxx_link_flags", strv_to_meson [
          "-nostdlib++",
          "-L" ++ (p ++ "/lib/c++"),
          "-lc++",
          "-lc++abi"])]
    else constants

/-- The built-in options section (lines 133-143): a fixed table, independent
of the target and of which constants were emitted. -/
def builtinOptions : List (String × String) := [
  ("c_args",           "c_like_flags"),
  ("cpp_args",         "c_like_flags + cxx_like_flags"),
  ("objc_args",        "c_like_flags"),
  ("objcpp_args",      "c_like_flags + cxx_like_flags"),
  ("c_link_args",      "linker_flags"),
  ("cpp_link_args",    "linker_flags + cxx_link_flags"),
  ("objc_link_args",   "linker_flags"),
  ("objcpp_link_args", "linker_flags + cxx_link_flags"),
  ("b_lundef",         "true")]

/-- A configuration sink in the sense of `ConfigParser`: named sections,
each an ordered table of option/role names to string values. -/
abbrev MachineConfig := List (String × List (String × String))

/-- Section assignment `config[name] = table`: replace the section in place
if the name is already present, otherwise append it. -/
def setSection (config : MachineConfig) (k : String) (v : List (String × String)) :
    MachineConfig :=
  match config with
  | [] => [(k, v)]
  | (k2, v2) :: rest =>
    if k2 == k then (k2, v) :: rest else (k2, v2) :: setSection rest k v

/-- The entry operation `init_machine_config` (lines 54-145).  The sink
reached at the point of a raised exception is returned alongside the error,
so partial-output behaviour is observable; on success the result carries the
two auxiliary outputs `machine_path` and `machine_env`. -/
def init_machine_config (machine : MachineSpec) ( sdk_prefix : Option String)
    (native_machine : MachineSpec) (is_cross_build : Bool)
    (call_selected_meson : Unit) (env : Env) (config : MachineConfig) :
    MachineConfig × Except ResolveError (List String × List (String × String)) :=
  let machine_path : List String := []
  let machine_env : List (String × String) := []
  match dictGet? APPLE_SDKS machine.os_dash_config with
  | none => (config, Except.error (ResolveError.keyError machine.os_dash_config))
  | some sdk_name =>
    let sdk_path := env.sdkPath sdk_name
    match resolveBinaries env sdk_name with
    | Except.error e => (config, Except.error e)
    | Except.ok (binaries, clang_path) =>
      let config := setSection config "binaries" binaries
      let clang_arch := clangArchFor machine.arch
      match dictGet? APPLE_MINIMUM_OS_VERSIONS machine.os with
      | none => (config, Except.error (ResolveError.keyError machine.os))
      | some fallback =>
        let os_minver := (dictGet? APPLE_MINIMUM_OS_VERSIONS machine.os_dash_arch).getD fallback
        let target := targetTriple clang_arch machine.os os_minver machine.config
        match clang_path with
        | none => (config, Except.error ResolveError.attributeError)
        | some clang_path =>
          let config := setSection config "constants"
            (mkConstants machine sdk_prefix env sdk_path target clang_path)
          let config := setSection config "built-in options" builtinOptions
          (config, Except.ok (machine_path, machine_env))

/-- Successful-run characterization: when the SDK lookup and the eager
OS-version fallback lookup both succeed, the run writes the three sections
and returns the two empty auxiliary outputs. -/
theorem init_eq_of_lookups (m : MachineSpec) (sp : Option String) (nm : MachineSpec)
    (xb : Bool) (cm : Unit) (env : Env) (config : MachineConfig) (sdk fb : String)
    (h1 : dictGet? APPLE_SDKS m.os_dash_config = some sdk)
    (h2 : dictGet? APPLE_MINIMUM_OS_VERSIONS m.os = some fb) :
    init_machine_config m sp nm xb cm env config =
      (setSection (setSection (setSection config "binaries" (resolvedBins env sdk))
          "constants"
          (mkConstants m sp env (env.sdkPath sdk)
            (targetTriple (clangArchFor m.arch) m.os
              ((dictGet? APPLE_MINIMUM_OS_VERSIONS m.os_dash_arch).getD fb) m.config)
            (env.toolPath sdk "clang")))
        "built-in options" builtinOptions,
       Except.ok ([], [])) := by
  unfold init_machine_config
  simp only [h1, resolveBinaries_eq, h2]

/-- Converse: a successful run implies both fatal lookups succeeded. -/
theorem init_ok_lookups (m : MachineSpec) (sp : Option String) (nm : MachineSpec)
    (xb : Bool) (cm : Unit) (env : Env) (config : MachineConfig)
    {cfg2 : MachineConfig} {r : List String × List (String × String)}
    (h : init_machine_config m sp nm xb cm env config = (cfg2, Except.ok r)) :
    ∃ sdk fb, dictGet? APPLE_SDKS m.os_dash_config = some sdk ∧
      dictGet? APPLE_MINIMUM_OS_VERSIONS m.os = some fb := by
  unfold init_machine_config at h
  rcases h1 : dictGet? APPLE_SDKS m.os_dash_config with _ | sdk
  · rw [h1] at h
    simp at h
  · simp only [h1, resolveBinaries_eq] at h
    rcases h2 : dictGet? APPLE_MINIMUM_OS_VERSIONS m.os with _ | fb
    · simp only [h2] at h
      simp at h
    · exact ⟨sdk, fb, rfl, rfl⟩

/-- Reading back the section just assigned returns the assigned table. -/
theorem dictGet_setSection_self (config : MachineConfig) (k : String)
    (v : List (String × String)) : dictGet? (setSection config k v) k = some v := by
  induction config with
  | nil => simp [setSection, dictGet?]
  | cons p rest ih =>
    rcases p with ⟨k2, v2⟩
    by_cases hk : (k2 == k) = true
    · simp [setSection, dictGet?, hk]
    · simp only [Bool.not_eq_true] at hk
      simp [setSection, dictGet?, hk, ih]

/-- Assigning one section leaves every other section unchanged. -/
theorem dictGet_setSection_of_ne (config : MachineConfig) (ks k : String)
    (v : List (String × String)) (h : (ks == k) = false) :
    dictGet? (setSection config ks v) k = dictGet? config k := by
  induction config with
  | nil => simp [setSection, dictGet?, h]
  | cons p rest ih =>
    rcases p with ⟨k2, v2⟩
    by_cases hk : (k2 == ks) = true
    · have hkk : (k2 == k) = false := by
        have : k2 = ks := by simpa using hk
        simpa [this] using h
      simp [setSection, dictGet?, hk, hkk]
    · simp only [Bool.not_eq_true] at hk
      by_cases hkq : (k2 == k) = true
      · simp [setSection, dictGet?, hk, hkq]
      · simp only [Bool.not_eq_true] at hkq
        simp [setSection, dictGet?, hk, hkq, ih]

/-- Concrete effect oracle used by the closed evaluations below. -/
def envC : Env := {
  sdkPath := fun _ => "/sdkroot",
  toolPath := fun _ tool => "/bin/" ++ tool,
  fileExists := fun _ => false }

/-- Concrete target: macOS on arm64, no config suffix. -/
def mMac : MachineSpec := { os := "macos", arch := "arm64", config := none }

/-- Concrete effect oracle whose filesystem probe always succeeds. -/
def envD : Env := {
  sdkPath := fun _ => "/sdkroot",
  toolPath := fun _ tool => "/bin/" ++ tool,
  fileExists := fun _ => true }

/-- Concrete target outside the SDK table. -/
def mLinux : MachineSpec := { os := "linux", arch := "x86_64", config := none }

/-- Concrete target whose OS-dash-config key is in the SDK table but whose
OS has no entry in the minimum-version table. -/
def mIosSim : MachineSpec := { os := "ios-simulator", arch := "arm64", config := none }

/-- OS component derivable from an SDK-table key: the part of the key before
the first dash (code point 45), the whole key when it has no dash. -/
def osComponent (key : String) : String :=
  String.mk (key.data.takeWhile (fun c => c != Char.ofNat 45))

/-- C5: a missing OS-dash-config key in the SDK table fails with a lookup
error before any section is written (the sink is returned unchanged), while
a missing OS fallback in the minimum-version table fails only after the
binaries section has been written to the sink. -/
theorem failure_atomicity (m : MachineSpec) (sp : Option String) (nm : MachineSpec)
    (xb : Bool) (cm : Unit) (env : Env) (config : MachineConfig) :
    (dictGet? APPLE_SDKS m.os_dash_config = none →
      init_machine_config m sp nm xb cm env config =
        (config, Except.error (ResolveError.keyError m.os_dash_config))) ∧
    (∀ sdk, dictGet? APPLE_SDKS m.os_dash_config = some sdk →
      dictGet? APPLE_MINIMUM_OS_VERSIONS m.os = none →
      init_machine_config m sp nm xb cm env config =
        (setSection config "binaries" (resolvedBins env sdk),
         Except.error (ResolveError.keyError m.os))) := by
  constructor
  · intro h1
    unfold init_machine_config
    simp only [h1]
  · intro sdk h1 h2
    unfold init_machine_config
    simp only [h1, resolveBinaries_eq, h2]

/-- C5 witness: concrete runs hitting each of the two failure points. -/
theorem failure_atomicity_witness :
    init_machine_config mLinux none mMac false () envC [] =
      ([], Except.error (ResolveError.keyError "linux")) ∧
    init_machine_config mIosSim none mMac false () envC [] =
      (setSection [] "binaries" (resolvedBins envC "iphonesimulator"),
       Except.error (ResolveError.keyError "ios-simulator")) :=
  ⟨(failure_atomicity mLinux none mMac false () envC []).1 rfl,
   (failure_atomicity mIosSim none mMac false () envC []).2 "iphonesimulator" rfl rfl⟩

/-- C6: for every key of the SDK table, the OS component derivable from the
key has an OS-only entry in the minimum-version table, so the version
fallback lookup cannot fail for a target that passed SDK identification — a
static property of the two compiled-in tables. -/
theorem sdk_version_tables_consistent :
    APPLE_SDKS.all
      (fun p => (dictGet? APPLE_MINIMUM_OS_VERSIONS (osComponent p.1)).isSome) = true := by
  decide

/-- C7: an architecture absent from the alias table passes through the
identity fallback and appears verbatim as the leading dash-separated
component of the assembled target triple. -/
theorem arch_identity_fallback (arch os v : String) (cfg : Option String)
    (h : dictGet? APPLE_CLANG_ARCHS arch = none) :
    targetTriple (clangArchFor arch) os v cfg = arch ++ "-" ++ tripleTail os v cfg := by
  have ha : clangArchFor arch = arch := by simp [clangArchFor, h]
  have hd : ("-apple-" : String) = "-" ++ "apple-" := rfl
  rcases cfg with _ | c
  · simp only [targetTriple, tripleTail, ha]
    simp [String.append_assoc]
    rw [hd, String.append_assoc]
  · simp only [targetTriple, tripleTail, ha]
    simp [String.append_assoc]
    rw [hd, String.append_assoc]

/-- C7 witness: the x86_64 architecture, absent from the alias table, leads
the triple verbatim. -/
theorem arch_identity_fallback_witness :
    targetTriple (clangArchFor "x86_64") "macos" "10.9" none =
      "x86_64" ++ "-" ++ tripleTail "macos" "10.9" none :=
  arch_identity_fallback "x86_64" "macos" "10.9" none rfl

/-- C10: the ld-classic probe is safe: the first toolchain entry is the
non-alias role c with tool clang, so the loop always records a clang path,
and no run can fail with the attribute error of dereferencing an unset
compiler path — every failure is a lookup error. -/
theorem clang_probe_safe :
    APPLE_BINARIES.head? = some ("c", "clang", []) ∧
    (∀ (env : Env) (s : String),
      resolveBinaries env s =
        Except.ok (resolvedBins env s, some (env.toolPath s "clang"))) ∧
    (∀ (m : MachineSpec) (sp : Option String) (nm : MachineSpec) (xb : Bool)
      (cm : Unit) (env : Env) (config : MachineConfig),
      (∃ r, (init_machine_config m sp nm xb cm env config).2 = Except.ok r) ∨
      (∃ k, (init_machine_config m sp nm xb cm env config).2 =
        Except.error (ResolveError.keyError k))) := by
  refine ⟨rfl, resolveBinaries_eq, ?_⟩
  intro m sp nm xb cm env config
  unfold init_machine_config
  rcases h1 : dictGet? APPLE_SDKS m.os_dash_config with _ | sdk
  · exact Or.inr ⟨m.os_dash_config, rfl⟩
  · simp only [resolveBinaries_eq]
    rcases h2 : dictGet? APPLE_MINIMUM_OS_VERSIONS m.os with _ | fb
    · exact Or.inr ⟨m.os, rfl⟩
    · exact Or.inl ⟨([], []), rfl⟩

/-- C1 counterexample: for the macOS/arm64 target resolved without an SDK
overlay, the constants section has no cxx_like_flags entry, yet the
built-in options entry for cpp_args is the expression naming both
c_like_flags and cxx_like_flags — not an expression combining only
c_like_flags. -/
theorem cpp_args_mentions_cxx_without_overlay :
    (dictGet? (init_machine_config mMac none mMac false () envC []).1 "constants").bind
      (fun cs => dictGet? cs "cxx_like_flags") = none ∧
    (dictGet? (init_machine_config mMac none mMac false () envC []).1 "built-in options").bind
      (fun o => dictGet? o "cpp_args") = some "c_like_flags + cxx_like_flags" ∧
    "c_like_flags + cxx_like_flags" ≠ "c_like_flags" :=
  ⟨rfl, rfl, by decide⟩

/-- C1 (amended): the built-in options section is a fixed table, so on every
successful run the cpp_args entry (and likewise objcpp_args) is the
expression naming c_like_flags plus cxx_like_flags, regardless of whether
an overlay supplied the cxx constants. -/
theorem cpp_args_fixed_expression (m : MachineSpec) (sp : Option String)
    (nm : MachineSpec) (xb : Bool) (cm : Unit) (env : Env) (config : MachineConfig)
    {cfg2 : MachineConfig} {r : List String × List (String × String)}
    (h : init_machine_config m sp nm xb cm env config = (cfg2, Except.ok r)) :
    dictGet? cfg2 "built-in options" = some builtinOptions ∧
    dictGet? builtinOptions "cpp_args" = some "c_like_flags + cxx_like_flags" ∧
    dictGet? builtinOptions "objcpp_args" = some "c_like_flags + cxx_like_flags" := by
  obtain ⟨sdk, fb, h1, h2⟩ := init_ok_lookups m sp nm xb cm env config h
  have hchar := init_eq_of_lookups m sp nm xb cm env config sdk fb h1 h2
  rw [h] at hchar
  simp only [Prod.mk.injEq, Except.ok.injEq] at hchar
  obtain ⟨rfl, rfl⟩ := hchar
  exact ⟨dictGet_setSection_self _ _ _, rfl, rfl⟩

/-- C1 witness: a concrete successful overlay-free run to which the amended
statement applies. -/
theorem cpp_args_fixed_expression_witness :
    dictGet? (init_machine_config mMac none mMac false () envC []).1 "built-in options" =
      some builtinOptions ∧
    dictGet? builtinOptions "cpp_args" = some "c_like_flags + cxx_like_flags" := by
  obtain ⟨ha, hb, _⟩ := cpp_args_fixed_expression mMac none mMac false () envC [] rfl
  exact ⟨ha, hb⟩

/-- C2: on every successful run, the constants section carries both
cxx_like_flags and cxx_link_flags exactly when an overlay path was
supplied, its static libc++ archive exists, and the OS is not watchos;
otherwise neither key is present. -/
theorem cxx_constants_presence (m : MachineSpec) (sp : Option String)
    (nm : MachineSpec) (xb : Bool) (cm : Unit) (env : Env) (config : MachineConfig)
    {cfg2 : MachineConfig} {r : List String × List (String × String)}
    (h : init_machine_config m sp nm xb cm env config = (cfg2, Except.ok r)) :
    ∃ cs, dictGet? cfg2 "constants" = some cs ∧
      ((∃ p, sp = some p ∧ env.fileExists (p ++ "/lib/c++/libc++.a") = true ∧
          m.os ≠ "watchos") →
        (dictGet? cs "cxx_like_flags").isSome = true ∧
        (dictGet? cs "cxx_link_flags").isSome = true) ∧
      ((¬ ∃ p, sp = some p ∧ env.fileExists (p ++ "/lib/c++/libc++.a") = true ∧
          m.os ≠ "watchos") →
        dictGet? cs "cxx_like_flags" = none ∧
        dictGet? cs "cxx_link_flags" = none) := by
  obtain ⟨sdk, fb, h1, h2⟩ := init_ok_lookups m sp nm xb cm env config h
  have hchar := init_eq_of_lookups m sp nm xb cm env config sdk fb h1 h2
  rw [h] at hchar
  simp only [Prod.mk.injEq, Except.ok.injEq] at hchar
  obtain ⟨rfl, rfl⟩ := hchar
  refine ⟨mkConstants m sp env (env.sdkPath sdk)
    (targetTriple (clangArchFor m.arch) m.os
      ((dictGet? APPLE_MINIMUM_OS_VERSIONS m.os_dash_arch).getD fb) m.config)
    (env.toolPath sdk "clang"), ?_, ?_, ?_⟩
  · rw [dictGet_setSection_of_ne _ "built-in options" "constants" _ rfl,
      dictGet_setSection_self]
  · rintro ⟨p, rfl, hf, hos⟩
    have hcond : (env.fileExists (p ++ "/lib/c++/libc++.a") && (m.os != "watchos")) = true := by
      simp [hf, hos]
    simp only [mkConstants]
    rw [if_pos hcond]
    exact ⟨rfl, rfl⟩
  · intro hno
    rcases sp with _ | p
    · exact ⟨rfl, rfl⟩
    · have hcond : (env.fileExists (p ++ "/lib/c++/libc++.a") && (m.os != "watchos")) = false := by
        rcases hb : env.fileExists (p ++ "/lib/c++/libc++.a") with _ | _
        · simp [hb]
        · rcases hw : (m.os != "watchos") with _ | _
          · simp [hb, hw]
          · exact absurd ⟨p, rfl, hb, by simpa using hw⟩ hno
      simp only [mkConstants]
      rw [if_neg (by simp [hcond])]
      exact ⟨rfl, rfl⟩

/-- C2 witness: a concrete run with an overlay whose libc++ archive exists
on a non-watchos target carries both cxx constants. -/
theorem cxx_constants_presence_witness :
    (dictGet? (init_machine_config mMac (some "/opt") mMac false () envD []).1
        "constants").map
      (fun cs => ((dictGet? cs "cxx_like_flags").isSome,
                  (dictGet? cs "cxx_link_flags").isSome)) = some (true, true) := by
  obtain ⟨cs, hcs, hpos, _⟩ :=
    cxx_constants_presence mMac (some "/opt") mMac false () envD [] rfl
  have hcs2 : dictGet? (init_machine_config mMac (some "/opt") mMac false () envD []).1
      "constants" = some cs := hcs
  rw [hcs2]
  obtain ⟨h5, h6⟩ := hpos ⟨"/opt", rfl, rfl, by decide⟩
  simp [h5, h6]

/-- C3 counterexample: a concrete successful run writes exactly three
sections into the sink — binaries, constants, built-in options — not
four. -/
theorem four_sections_refuted :
    ((init_machine_config mMac none mMac false () envC []).1).map Prod.fst =
      ["binaries", "constants", "built-in options"] ∧
    ((init_machine_config mMac none mMac false () envC []).1).length ≠ 4 :=
  ⟨rfl, by decide⟩

/-- C3 (amended): every successful run on a fresh sink inserts exactly the
three sections binaries, constants and built-in options, and returns the
search-path list and environment mapping both empty. -/
theorem three_sections_and_empty_aux (m : MachineSpec) (sp : Option String)
    (nm : MachineSpec) (xb : Bool) (cm : Unit) (env : Env)
    {cfg2 : MachineConfig} {r : List String × List (String × String)}
    (h : init_machine_config m sp nm xb cm env [] = (cfg2, Except.ok r)) :
    r = ([], []) ∧
    cfg2.map Prod.fst = ["binaries", "constants", "built-in options"] := by
  obtain ⟨sdk, fb, h1, h2⟩ := init_ok_lookups m sp nm xb cm env [] h
  have hchar := init_eq_of_lookups m sp nm xb cm env [] sdk fb h1 h2
  rw [h] at hchar
  simp only [Prod.mk.injEq, Except.ok.injEq] at hchar
  obtain ⟨rfl, rfl⟩ := hchar
  exact ⟨rfl, rfl⟩

/-- C3 witness: the concrete macOS/arm64 run inserts the three sections. -/
theorem three_sections_and_empty_aux_witness :
    List.map Prod.fst (init_machine_config mMac none mMac false () envC []).1 =
      ["binaries", "constants", "built-in options"] :=
  (three_sections_and_empty_aux mMac none mMac false () envC rfl).2

/-- C4 counterexample: the recorded invocation string for the non-alias role
ar is the Python list rendering of the resolved path — bracketed and quoted
— not the bare path space-joined with its (empty) extra flags. -/
theorem ar_invocation_not_space_joined :
    (dictGet? (init_machine_config mMac none mMac false () envC []).1 "binaries").bind
      (fun b => dictGet? b "ar") = some (pyStr ["/bin/ar"]) ∧
    pyStr ["/bin/ar"] ≠ "/bin/ar" :=
  ⟨rfl, by decide⟩

/-- C4 (amended): for every non-alias entry of the toolchain list, the
recorded invocation string is the Python list rendering of the resolved
path followed by the entry's extra flags, with the composition token
" + common_flags" appended after that rendering for the compiler roles c
and cpp. -/
theorem binary_invocation_format (env : Env) (s identifier tool_name : String)
    (flags : List String)
    (hmem : (identifier, tool_name, flags) ∈ APPLE_BINARIES)
    (halias : isAliasRef tool_name = false) :
    ∀ bs cp, resolveBinaries env s = Except.ok (bs, cp) →
      dictGet? bs identifier =
        some (if identifier == "c" || identifier == "cpp"
          then pyStr (env.toolPath s tool_name :: flags) ++ " + common_flags"
          else pyStr (env.toolPath s tool_name :: flags)) := by
  intro bs cp h
  rw [resolveBinaries_eq] at h
  simp only [Except.ok.injEq, Prod.mk.injEq] at h
  obtain ⟨rfl, rfl⟩ := h
  simp only [APPLE_BINARIES, List.mem_cons, List.not_mem_nil, or_false,
    Prod.mk.injEq] at hmem
  rcases hmem with he | he | he | he | he | he | he | he | he | he | he | he | he <;>
    obtain ⟨rfl, rfl, rfl⟩ := he <;>
    first
      | rfl
      | exact absurd halias (by decide)

/-- C4 witness: the cpp role records the rendered clang++ path with its
declared flag and the appended composition token. -/
theorem binary_invocation_format_witness :
    dictGet? (resolvedBins envC "macosx") "cpp" =
      some (pyStr [envC.toolPath "macosx" "clang++", "-stdlib=libc++"] ++
        " + common_flags") :=
  binary_invocation_format envC "macosx" "cpp" "clang++" ["-stdlib=libc++"]
    (by decide) (by decide) (resolvedBins envC "macosx")
    (some (envC.toolPath "macosx" "clang")) (resolveBinaries_eq envC "macosx")

/-- C8: on every successful run, the binaries section records for objc the
very string recorded for c, and for objcpp the very string recorded for
cpp. -/
theorem alias_roles_copy (m : MachineSpec) (sp : Option String)
    (nm : MachineSpec) (xb : Bool) (cm : Unit) (env : Env) (config : MachineConfig)
    {cfg2 : MachineConfig} {r : List String × List (String × String)}
    (h : init_machine_config m sp nm xb cm env config = (cfg2, Except.ok r)) :
    ∃ bs, dictGet? cfg2 "binaries" = some bs ∧
      dictGet? bs "objc" = dictGet? bs "c" ∧
      dictGet? bs "objcpp" = dictGet? bs "cpp" ∧
      (dictGet? bs "c").isSome = true ∧ (dictGet? bs "cpp").isSome = true := by
  obtain ⟨sdk, fb, h1, h2⟩ := init_ok_lookups m sp nm xb cm env config h
  have hchar := init_eq_of_lookups m sp nm xb cm env config sdk fb h1 h2
  rw [h] at hchar
  simp only [Prod.mk.injEq, Except.ok.injEq] at hchar
  obtain ⟨rfl, rfl⟩ := hchar
  refine ⟨resolvedBins env sdk, ?_, rfl, rfl, rfl, rfl⟩
  rw [dictGet_setSection_of_ne _ "built-in options" "binaries" _ rfl,
    dictGet_setSection_of_ne _ "constants" "binaries" _ rfl,
    dictGet_setSection_self]

/-- C8 witness: the concrete macOS/arm64 run copies c into objc and cpp
into objcpp. -/
theorem alias_roles_copy_witness :
    dictGet? (resolvedBins envC "macosx") "objc" =
      dictGet? (resolvedBins envC "macosx") "c" ∧
    dictGet? (resolvedBins envC "macosx") "objcpp" =
      dictGet? (resolvedBins envC "macosx") "cpp" := by
  obtain ⟨bs, hbs, hoc, hocpp, _, _⟩ :=
    alias_roles_copy mMac none mMac false () envC [] rfl
  have hconc : dictGet? (init_machine_config mMac none mMac false () envC []).1
      "binaries" = some (resolvedBins envC "macosx") := rfl
  injection hbs.symm.trans hconc with hb
  rw [hb] at hoc hocpp
  exact ⟨hoc, hocpp⟩

/-- C9: for the macOS/arm64 target with no config suffix and no overlay, the
assembled target triple is arm64-apple-macos11.0 (written into the
common_flags constant) and the constants section carries exactly the keys
common_flags, c_like_flags and linker_flags. -/
theorem macos_arm64_triple_and_constants (nm : MachineSpec) (xb : Bool) (cm : Unit)
    (env : Env) (config : MachineConfig) :
    dictGet? (init_machine_config mMac none nm xb cm env config).1 "constants" =
      some (mkConstants mMac none env (env.sdkPath "macosx")
        "arm64-apple-macos11.0" (env.toolPath "macosx" "clang")) ∧
    (mkConstants mMac none env (env.sdkPath "macosx") "arm64-apple-macos11.0"
        (env.toolPath "macosx" "clang")).map Prod.fst =
      ["common_flags", "c_like_flags", "linker_flags"] ∧
    dictGet? (mkConstants mMac none env (env.sdkPath "macosx")
        "arm64-apple-macos11.0" (env.toolPath "macosx" "clang")) "common_flags" =
      some (strv_to_meson ["-target", "arm64-apple-macos11.0", "-isysroot",
        env.sdkPath "macosx"]) := by
  refine ⟨?_, rfl, rfl⟩
  rw [init_eq_of_lookups mMac none nm xb cm env config "macosx" "10.9" rfl rfl]
  rw [dictGet_setSection_of_ne _ "built-in options" "constants" _ rfl,
    dictGet_setSection_self]
  rfl

end EnvApple
